import Mathlib

/-!
# Registration form (`components/formReg.js`)

A shallow embedding of the `Reg` component: the form record, `validateForm`,
`handleSubmit` and the event handlers that feed the form state.

JavaScript strings are sequences of UTF-16 code units.  Form values are kept as
Lean strings; `.length` and the regular expression are evaluated on the UTF-16
code units of the value (`toUTF16`).  The remote collaborators (authentication,
document store, image hosting) are parameters of `handleSubmit`; what the
handler does is recorded as the ordered list of its effects.
-/

namespace FormReg

/-! ## JavaScript strings -/

/-- UTF-16 code units of one code point (a surrogate pair above the BMP). -/
def utf16Units (c : Char) : List Nat :=
  if c.toNat < 0x10000 then [c.toNat]
  else [0xD800 + (c.toNat - 0x10000) / 0x400, 0xDC00 + (c.toNat - 0x10000) % 0x400]

/-- UTF-16 code units of a list of code points. -/
def unitsOf : List Char → List Nat
  | [] => []
  | c :: cs => utf16Units c ++ unitsOf cs

/-- The code units of a string value. -/
def toUTF16 (s : String) : List Nat := unitsOf s.data

/-- The `.length` of a JavaScript string: its number of UTF-16 code units. -/
def jsLength (s : String) : Nat := (toUTF16 s).length

/-- Truthiness of a string value: only the empty string is falsy. -/
def truthy (s : String) : Bool := !(s == "")

/-- The code units matched by `\s`: WhiteSpace and LineTerminator of ECMAScript. -/
def isWhiteSpace (u : Nat) : Bool :=
  u == 0x09 || u == 0x0A || u == 0x0B || u == 0x0C || u == 0x0D || u == 0x20 ||
  u == 0xA0 || u == 0x1680 || (0x2000 ≤ u && u ≤ 0x200A) || u == 0x2028 ||
  u == 0x2029 || u == 0x202F || u == 0x205F || u == 0x3000 || u == 0xFEFF

/-! ## The regular expression `/\S+@\S+\.\S+/` -/

/-- One-unit matchers: `\S` and an escaped or plain literal. -/
inductive Atom where
  | nonSpace
  | lit (u : Nat)
deriving DecidableEq, Repr

/-- Whether an atom matches a code unit. -/
def Atom.accepts : Atom → Nat → Bool
  | .nonSpace, u => !isWhiteSpace u
  | .lit v, u => u == v

/-- A pattern term: an atom, or an atom under the greedy quantifier `+`. -/
inductive Item where
  | one (a : Atom)
  | plus (a : Atom)
deriving DecidableEq, Repr

/-- The pattern `\S+@\S+\.\S+`: line 49 of the source. -/
def emailPattern : List Item :=
  [.plus .nonSpace, .one (.lit 0x40), .plus .nonSpace, .one (.lit 0x2E), .plus .nonSpace]

/-- Backtracking match of a pattern at the start of the input.  A `+` first
tries to take one more unit and falls back to the rest of the pattern. -/
def matchHere : List Item → List Nat → Bool
  | [], _ => true
  | _ :: _, [] => false
  | .one a :: rest, u :: us => a.accepts u && matchHere rest us
  | .plus a :: rest, u :: us =>
      a.accepts u && (matchHere (.plus a :: rest) us || matchHere rest us)

/-- The method `RegExp.prototype.test` on a pattern without anchors: a match
is tried at every start position, left to right. -/
def reTest (items : List Item) : List Nat → Bool
  | [] => matchHere items []
  | u :: us => matchHere items (u :: us) || reTest items us

/-! ## Form state -/

/-- The record `formData`.  The key `profileImage` is absent from the initial
record and is added by `onUploadComplete`. -/
structure FormData where
  fullName : String
  email : String
  phone : String
  address : String
  password : String
  confirmPassword : String
  companyName : String
  industryType : String
  companyDescription : String
  profileImage : Option String
deriving DecidableEq, Repr

/-- The initial value of `formData` (lines 12 to 22). -/
def initialFormData : FormData :=
  { fullName := "", email := "", phone := "", address := "", password := "",
    confirmPassword := "", companyName := "", industryType := "Forestal",
    companyDescription := "", profileImage := none }

/-- The function `validateForm` (lines 33 to 60).  The result `some msg` is
`setError(msg); return false`, the result `none` is `return true`. -/
def validateForm (fd : FormData) (isProducer : Bool) : Option String :=
  if !truthy fd.fullName || !truthy fd.email || !truthy fd.password
      || !truthy fd.confirmPassword then
    some "Please complete all required fields."
  else if fd.password != fd.confirmPassword then
    some "Passwords do not match."
  else if jsLength fd.password < 6 then
    some "Password must be at least 6 characters."
  else if !reTest emailPattern (toUTF16 fd.email) then
    some "Please enter a valid email address."
  else if isProducer && !truthy fd.companyName then
    some "Company name is required for producers."
  else
    none

/-- Truthiness of a value that is `null`, `undefined` or a string. -/
def truthyOpt : Option String → Bool
  | none => false
  | some s => truthy s

/-- The expression `v || null` on a value that is absent or a string. -/
def orNull (v : Option String) : Option String :=
  if truthyOpt v then v else none

/-- The expression `s || ""` on a string. -/
def orEmpty (s : String) : String :=
  if truthy s then s else ""

/-- The state of the component: `formData`, `image`, `error`, `loading` and
`successMessage` (lines 12 to 27).  The setter `setImage` is never called in
the source, so no handler below writes `image`. -/
structure State where
  formData : FormData
  image : Option String
  error : String
  loading : Bool
  successMessage : String
deriving DecidableEq, Repr

/-- The state at screen entry. -/
def initialState : State :=
  { formData := initialFormData, image := none, error := "", loading := false,
    successMessage := "" }

/-- The object written to `users/<email>` (lines 91 to 101). -/
structure ProfileDoc where
  fullName : String
  email : String
  phone : String
  address : String
  companyName : String
  industryType : String
  companyDescription : String
  profileImage : Option String
  createdAt : Nat
deriving DecidableEq, Repr

/-- The data of a `setDoc` call: the profile object or `{ role }`. -/
inductive DocData where
  | profile (p : ProfileDoc)
  | role (r : Nat)
deriving DecidableEq, Repr

/-- How an awaited call of `uploadImageToCloudinary` ends: its promise
resolves with the hosted URL or a falsy value, or the call throws or its
promise rejects. -/
inductive UploadResult where
  | resolved (url : Option String)
  | rejected
deriving DecidableEq, Repr

/-- The collaborators of `handleSubmit`.  The source file neither defines nor
imports `uploadImageToCloudinary`: the value `none` is the file as it stands,
where evaluating the name at line 74 raises a ReferenceError, and `some f` is
a binding supplied by the global scope.  `createUserWithEmailAndPassword`
yields `userCredential.user.email` or throws an error with a message; `setDoc`
returns or throws an error with a message; `now` is the value of `new Date()`. -/
structure Remote where
  uploadImageToCloudinary : Option (String → UploadResult)
  createUserWithEmailAndPassword : String → String → Except String String
  setDoc : String → String → DocData → Except String Unit
  now : Nat

/-- What `handleSubmit` does, in program order. -/
inductive Effect where
  | setError (msg : String)
  | setSuccessMessage (msg : String)
  | setLoading (b : Bool)
  | uploadImage (image : String)
  | createUser (email password : String)
  | setDoc (collection key : String) (data : DocData)
  | consoleError (msg : String)
  | setTimeoutNavigate (ms : Nat) (screen : String)
  | unhandledRejection
deriving DecidableEq, Repr

/-- The profile object built at lines 90 to 101. -/
def profileRecord (isProducer : Bool) (fd : FormData) (now : Nat) : ProfileDoc :=
  { fullName := fd.fullName
    email := fd.email
    phone := orEmpty fd.phone
    address := orEmpty fd.address
    companyName := if isProducer then fd.companyName else ""
    industryType := if isProducer then fd.industryType else ""
    companyDescription := if isProducer then fd.companyDescription else ""
    profileImage := orNull fd.profileImage
    createdAt := now }

/-- The `catch` and `finally` blocks (lines 115 to 120). -/
def catchFinally (message : String) : List Effect :=
  [.consoleError message, .setError ("Error registering the user: " ++ message),
   .setLoading false]

/-- The `try` statement of `handleSubmit` (lines 82 to 120). -/
def registerUser (isProducer : Bool) (fd : FormData) (r : Remote) : List Effect :=
  .createUser fd.email fd.password ::
  match r.createUserWithEmailAndPassword fd.email fd.password with
  | .error message => catchFinally message
  | .ok userEmail =>
    .setDoc "users" userEmail (.profile (profileRecord isProducer fd r.now)) ::
    match r.setDoc "users" userEmail (.profile (profileRecord isProducer fd r.now)) with
    | .error message => catchFinally message
    | .ok _ =>
      .setDoc "Roles" userEmail (.role (if isProducer then 2 else 1)) ::
      match r.setDoc "Roles" userEmail (.role (if isProducer then 2 else 1)) with
      | .error message => catchFinally message
      | .ok _ =>
        [.setSuccessMessage "User successfully registered",
         .setTimeoutNavigate 2000 "Login", .setLoading false]

/-- The function `handleSubmit` (lines 62 to 121), run on the state of the
render it was created in.  The image step (lines 72 to 80) stands before the
`try` of line 82: when the name `uploadImageToCloudinary` is unbound, or the
awaited call throws, the exception leaves `handleSubmit` and nothing after
line 74 runs (effect `unhandledRejection`). -/
def handleSubmit (isProducer : Bool) (st : State) (r : Remote) : List Effect :=
  .setError "" :: .setSuccessMessage "" ::
  match validateForm st.formData isProducer with
  | some msg => [.setError msg]
  | none =>
    .setLoading true ::
    match st.image with
    | some image =>
      if truthy image then
        match r.uploadImageToCloudinary with
        | none => [.unhandledRejection]
        | some upload =>
          .uploadImage image ::
          match upload image with
          | .rejected => [.unhandledRejection]
          | .resolved imageUrl =>
            if !truthyOpt imageUrl then
              [.setError "Image upload failed.", .setLoading false]
            else registerUser isProducer st.formData r
      else registerUser isProducer st.formData r
    | none => registerUser isProducer st.formData r

/-- The state update made by one effect; calls to collaborators leave the
component state as it is. -/
def applyEffect (st : State) : Effect → State
  | .setError msg => { st with error := msg }
  | .setSuccessMessage msg => { st with successMessage := msg }
  | .setLoading b => { st with loading := b }
  | _ => st

/-- The component state after a list of effects. -/
def applyEffects (st : State) (es : List Effect) : State :=
  es.foldl applyEffect st

/-- The calls that leave the device: image hosting, authentication, document
store. -/
def Effect.isRemoteCall : Effect → Bool
  | .uploadImage _ => true
  | .createUser _ _ => true
  | .setDoc _ _ _ => true
  | _ => false

/-- The remote calls of an effect list, in order. -/
def remoteCalls (es : List Effect) : List Effect :=
  es.filter Effect.isRemoteCall

/-- The text fields of the form. -/
inductive Field where
  | fullName | email | phone | address | password | confirmPassword
  | companyName | industryType | companyDescription
deriving DecidableEq, Repr

/-- The function `updateFormData` on a text field (lines 29 to 31). -/
def updateFormData (fd : FormData) : Field → String → FormData
  | .fullName, v => { fd with fullName := v }
  | .email, v => { fd with email := v }
  | .phone, v => { fd with phone := v }
  | .address, v => { fd with address := v }
  | .password, v => { fd with password := v }
  | .confirmPassword, v => { fd with confirmPassword := v }
  | .companyName, v => { fd with companyName := v }
  | .industryType, v => { fd with industryType := v }
  | .companyDescription, v => { fd with companyDescription := v }

/-- What can happen to the screen: an input changes, the `ImageUploader`
calls `onUploadComplete(url)`, or the Register button is pressed (the remote
outcomes of that submission ride along). -/
inductive Event where
  | changeText (field : Field) (text : String)
  | uploadComplete (url : Option String)
  | pressRegister (r : Remote)

/-- One event on the component state. -/
def step (isProducer : Bool) (st : State) : Event → State
  | .changeText field text => { st with formData := updateFormData st.formData field text }
  | .uploadComplete url => { st with formData := { st.formData with profileImage := url } }
  | .pressRegister r => applyEffects st (handleSubmit isProducer st r)

/-- The state after a sequence of events from screen entry. -/
def run (isProducer : Bool) (events : List Event) : State :=
  events.foldl (step isProducer) initialState

/-! ## What the pattern matches -/

/-- The words matched by a pattern, read off the pattern term by term. -/
def Lang : List Item → List Nat → Prop
  | [], m => m = []
  | .one a :: rest, m => ∃ u m', m = u :: m' ∧ a.accepts u = true ∧ Lang rest m'
  | .plus a :: rest, m =>
      ∃ X m', X ≠ [] ∧ (∀ u ∈ X, a.accepts u = true) ∧ m = X ++ m' ∧ Lang rest m'

/-- One or more code units, none of them white space. -/
def NonSpaceRun (X : List Nat) : Prop :=
  X ≠ [] ∧ ∀ u ∈ X, isWhiteSpace u = false

/-- The shape `X@Y.Z` of the specification: the whole word is a run of
non-space units, `@`, a run of non-space units, `.`, a run of non-space units. -/
def HasShape (l : List Nat) : Prop :=
  ∃ X Y Z, NonSpaceRun X ∧ NonSpaceRun Y ∧ NonSpaceRun Z ∧ l = X ++ 0x40 :: (Y ++ 0x2E :: Z)

/-- Some contiguous part of the word has the shape `X@Y.Z`. -/
def ContainsShape (l : List Nat) : Prop :=
  ∃ pre mid post, HasShape mid ∧ l = pre ++ (mid ++ post)

/-! ## The checks of the specification -/

/-- The five checks of the specification in their order, each with whether it
passes and the reason reported when it does not. -/
def specChecks (fd : FormData) (isProducer : Bool) : List (Bool × String) :=
  [ (decide (fd.fullName ≠ "" ∧ fd.email ≠ "" ∧ fd.password ≠ "" ∧ fd.confirmPassword ≠ ""),
      "Please complete all required fields."),
    (decide (fd.password = fd.confirmPassword), "Passwords do not match."),
    (decide (6 ≤ jsLength fd.password), "Password must be at least 6 characters."),
    (reTest emailPattern (toUTF16 fd.email), "Please enter a valid email address."),
    (decide (isProducer = true → fd.companyName ≠ ""), "Company name is required for producers.") ]

/-- The reason of the first check that does not pass, if there is one. -/
def firstFailure : List (Bool × String) → Option String
  | [] => none
  | (ok, reason) :: rest => if ok then firstFailure rest else some reason

/-- Every check except the one on the shape of the email passes. -/
def OtherChecksPass (fd : FormData) (isProducer : Bool) : Prop :=
  fd.fullName ≠ "" ∧ fd.email ≠ "" ∧ fd.password ≠ "" ∧ fd.confirmPassword ≠ "" ∧
  fd.password = fd.confirmPassword ∧ 6 ≤ jsLength fd.password ∧
  (isProducer = true → fd.companyName ≠ "")

/-- A required field is missing. -/
def MissingRequired (fd : FormData) : Prop :=
  fd.fullName = "" ∨ fd.email = "" ∨ fd.password = "" ∨ fd.confirmPassword = ""

/-- A buyer form that passes every check but the one on the email, which is
left to the caller. -/
def sampleForm (email : String) : FormData :=
  { initialFormData with
    fullName := "Ana", email := email, password := "secret", confirmPassword := "secret" }

/-- A state holding `sampleForm` with a well-shaped email. -/
def sampleState : State :=
  { initialState with formData := sampleForm "ana@mail.org" }

/-- The file as it stands (no upload function bound) with an authentication
provider and a document store that succeed; the account email is the one
submitted. -/
def remoteOk : Remote :=
  { uploadImageToCloudinary := none
    createUserWithEmailAndPassword := fun email _ => .ok email
    setDoc := fun _ _ _ => .ok ()
    now := 0 }

/-- The image step of `handleSubmit` does not abort: no image is held, or the
upload of the held image yields a hosted URL. -/
def UploadPasses (st : State) (r : Remote) : Prop :=
  ∀ image, st.image = some image → truthy image = true →
    ∃ upload url, r.uploadImageToCloudinary = some upload ∧
      upload image = .resolved url ∧ truthyOpt url = true

/-- The image step of `handleSubmit` raises: an image is held and the upload
function is unbound or its call throws. -/
def UploadRaises (st : State) (r : Remote) : Prop :=
  ∃ image, st.image = some image ∧ truthy image = true ∧
    (r.uploadImageToCloudinary = none ∨
     ∃ upload, r.uploadImageToCloudinary = some upload ∧ upload image = .rejected)

/-- A state that holds a picked image in the `image` slot. -/
def stateWithImage : State :=
  { initialState with formData := sampleForm "ana@mail.org", image := some "file:///photo.jpg" }

/-- The upload call of the image step, if the state holds an image. -/
def uploadCalls (st : State) : List Effect :=
  match st.image with
  | some image => if truthy image then [.uploadImage image] else []
  | none => []

/-- Validation passes and every remote call of the submission succeeds. -/
def Succeeds (isProducer : Bool) (st : State) (r : Remote) : Prop :=
  validateForm st.formData isProducer = none ∧ UploadPasses st r ∧
  ∃ userEmail,
    r.createUserWithEmailAndPassword st.formData.email st.formData.password = .ok userEmail ∧
    r.setDoc "users" userEmail (.profile (profileRecord isProducer st.formData r.now)) = .ok () ∧
    r.setDoc "Roles" userEmail (.role (if isProducer then 2 else 1)) = .ok ()

/-- The state after `handleSubmit` has run to its end. -/
def submit (isProducer : Bool) (st : State) (r : Remote) : State :=
  applyEffects st (handleSubmit isProducer st r)

/-- Collaborators whose account creation fails on a duplicate email. -/
def remoteAuthFails : Remote :=
  { remoteOk with
    createUserWithEmailAndPassword := fun _ _ => .error "auth/email-already-in-use" }

/-- Collaborators whose profile write fails. -/
def remoteProfileFails : Remote :=
  { remoteOk with
    setDoc := fun collection _ _ =>
      if collection = "users" then .error "permission-denied" else .ok () }

/-- A buyer fills in the required fields. -/
def buyerEvents : List Event :=
  [ .changeText .fullName "Ana", .changeText .email "ana@mail.org",
    .changeText .password "secret", .changeText .confirmPassword "secret" ]

/-- A producer fills in the form and the `ImageUploader` delivers a hosted URL. -/
def producerEvents : List Event :=
  [ .changeText .fullName "Ana", .changeText .email "ana@mail.org",
    .changeText .password "secret", .changeText .confirmPassword "secret",
    .changeText .companyName "Acme", .uploadComplete (some "https://x/img.png") ]

theorem matchHere_iff (items : List Item) (s : List Nat) :
    matchHere items s = true ↔ ∃ m post, s = m ++ post ∧ Lang items m := by
  induction s generalizing items with
  | nil =>
    cases items with
    | nil => simp [matchHere, Lang]
    | cons i rest =>
      cases i with
      | one a =>
        simp only [matchHere, Lang]
        constructor
        · intro h; cases h
        · rintro ⟨m, post, h, u, m', rfl, -⟩; simp at h
      | plus a =>
        simp only [matchHere, Lang]
        constructor
        · intro h; cases h
        · rintro ⟨m, post, h, X, m', hX, -, rfl, -⟩
          cases X with
          | nil => exact absurd rfl hX
          | cons x X => simp at h
  | cons u us ih =>
    cases items with
    | nil => exact ⟨fun _ => ⟨[], u :: us, rfl, rfl⟩, fun _ => by simp [matchHere]⟩
    | cons i rest =>
      cases i with
      | one a =>
        simp only [matchHere, Lang, Bool.and_eq_true, ih]
        constructor
        · rintro ⟨ha, m, post, rfl, hm⟩
          exact ⟨u :: m, post, rfl, u, m, rfl, ha, hm⟩
        · rintro ⟨m, post, h, v, m', rfl, ha, hm⟩
          simp only [List.cons_append, List.cons.injEq] at h
          obtain ⟨rfl, rfl⟩ := h
          exact ⟨ha, m', post, rfl, hm⟩
      | plus a =>
        simp only [matchHere, Lang, Bool.and_eq_true, Bool.or_eq_true, ih]
        constructor
        · rintro ⟨ha, ⟨m, post, rfl, X, m', hX, hall, rfl, hm⟩ | ⟨m, post, rfl, hm⟩⟩
          · refine ⟨u :: (X ++ m'), post, rfl, u :: X, m', by simp, ?_, rfl, hm⟩
            intro v hv
            rcases List.mem_cons.1 hv with rfl | hv
            · exact ha
            · exact hall v hv
          · refine ⟨u :: m, post, rfl, [u], m, by simp, ?_, rfl, hm⟩
            intro v hv
            rcases List.mem_cons.1 hv with rfl | hv
            · exact ha
            · cases hv
        · rintro ⟨m, post, h, X, m', hX, hall, rfl, hm⟩
          cases X with
          | nil => exact absurd rfl hX
          | cons x X =>
            simp only [List.cons_append, List.cons.injEq] at h
            obtain ⟨rfl, rfl⟩ := h
            refine ⟨hall u (List.mem_cons_self _ _), ?_⟩
            cases X with
            | nil => exact Or.inr ⟨m', post, rfl, hm⟩
            | cons y Y =>
              refine Or.inl ⟨(y :: Y) ++ m', post, rfl, y :: Y, m', by simp, ?_, rfl, hm⟩
              intro v hv
              exact hall v (List.mem_cons_of_mem _ hv)

theorem reTest_iff (items : List Item) (s : List Nat) :
    reTest items s = true ↔ ∃ pre m post, s = pre ++ (m ++ post) ∧ Lang items m := by
  induction s with
  | nil =>
    simp only [reTest, matchHere_iff]
    constructor
    · rintro ⟨m, post, h, hm⟩
      exact ⟨[], m, post, h, hm⟩
    · rintro ⟨pre, m, post, h, hm⟩
      cases pre with
      | nil => exact ⟨m, post, h, hm⟩
      | cons x pre => simp at h
  | cons u us ih =>
    simp only [reTest, Bool.or_eq_true, matchHere_iff, ih]
    constructor
    · rintro (⟨m, post, h, hm⟩ | ⟨pre, m, post, h, hm⟩)
      · exact ⟨[], m, post, h, hm⟩
      · exact ⟨u :: pre, m, post, by simp [h], hm⟩
    · rintro ⟨pre, m, post, h, hm⟩
      cases pre with
      | nil => exact Or.inl ⟨m, post, h, hm⟩
      | cons x pre =>
        simp only [List.cons_append, List.cons.injEq] at h
        exact Or.inr ⟨pre, m, post, h.2, hm⟩

theorem lang_emailPattern (m : List Nat) : Lang emailPattern m ↔ HasShape m := by
  simp only [emailPattern, Lang, HasShape, NonSpaceRun, Atom.accepts, Bool.not_eq_true',
    beq_iff_eq]
  constructor
  · rintro ⟨X, m1, hX, hXs, rfl, u, m2, rfl, rfl, Y, m3, hY, hYs, rfl, v, m4, rfl, rfl,
      Z, m5, hZ, hZs, rfl, rfl⟩
    exact ⟨X, Y, Z, ⟨hX, hXs⟩, ⟨hY, hYs⟩, ⟨hZ, hZs⟩, by simp⟩
  · rintro ⟨X, Y, Z, ⟨hX, hXs⟩, ⟨hY, hYs⟩, ⟨hZ, hZs⟩, rfl⟩
    exact ⟨X, _, hX, hXs, rfl, _, _, rfl, rfl, Y, _, hY, hYs, rfl, _, _, rfl, rfl,
      Z, [], hZ, hZs, by simp, rfl⟩

theorem reTest_emailPattern_iff (s : List Nat) :
    reTest emailPattern s = true ↔ ContainsShape s := by
  rw [reTest_iff]
  constructor
  · rintro ⟨pre, m, post, h, hm⟩
    exact ⟨pre, m, post, (lang_emailPattern m).1 hm, h⟩
  · rintro ⟨pre, m, post, hm, h⟩
    exact ⟨pre, m, post, h, (lang_emailPattern m).2 hm⟩

/-! ## Validation -/

theorem truthy_eq_false_iff (s : String) : truthy s = false ↔ s = "" := by
  simp [truthy]

theorem truthy_iff (s : String) : truthy s = true ↔ s ≠ "" := by
  simp [truthy]

/-- The guards of `validateForm` read as propositions. -/
theorem validateForm_cases (fd : FormData) (isProducer : Bool) :
    validateForm fd isProducer =
      if fd.fullName = "" ∨ fd.email = "" ∨ fd.password = "" ∨ fd.confirmPassword = "" then
        some "Please complete all required fields."
      else if fd.password ≠ fd.confirmPassword then some "Passwords do not match."
      else if jsLength fd.password < 6 then some "Password must be at least 6 characters."
      else if reTest emailPattern (toUTF16 fd.email) = false then
        some "Please enter a valid email address."
      else if isProducer = true ∧ fd.companyName = "" then
        some "Company name is required for producers."
      else none := by
  simp only [validateForm, truthy, Bool.not_not, Bool.or_eq_true, beq_iff_eq,
    bne_iff_ne, Bool.and_eq_true, Bool.not_eq_true', or_assoc, ne_eq]

theorem validateForm_eq_none_iff (fd : FormData) (isProducer : Bool) :
    validateForm fd isProducer = none ↔
      OtherChecksPass fd isProducer ∧ reTest emailPattern (toUTF16 fd.email) = true := by
  rw [validateForm_cases]
  unfold OtherChecksPass
  split_ifs with h1 h2 h3 h4 h5
  · simp only [reduceCtorEq, false_iff]; tauto
  · simp only [reduceCtorEq, false_iff]; tauto
  · simp only [reduceCtorEq, false_iff]; omega
  · simp [h4]
  · simp only [reduceCtorEq, false_iff]; tauto
  · simp only [true_iff]
    simp only [not_or] at h1
    simp only [not_not] at h2
    simp only [Bool.not_eq_false] at h4
    refine ⟨⟨h1.1, h1.2.1, h1.2.2.1, h1.2.2.2, h2, by omega, fun hp hc => h5 ⟨hp, hc⟩⟩, h4⟩

theorem hasShape_no_whiteSpace (l : List Nat) (h : HasShape l) :
    ∀ u ∈ l, isWhiteSpace u = false := by
  obtain ⟨X, Y, Z, ⟨-, hX⟩, ⟨-, hY⟩, ⟨-, hZ⟩, rfl⟩ := h
  intro u hu
  simp only [List.mem_append, List.mem_cons] at hu
  rcases hu with hu | rfl | hu | rfl | hu
  · exact hX u hu
  · decide
  · exact hY u hu
  · decide
  · exact hZ u hu

theorem hasShape_containsShape (l : List Nat) (h : HasShape l) : ContainsShape l :=
  ⟨[], l, [], h, by simp⟩

/-- C1: `validateForm` returns the reason of the first check that fails, in the
order required fields, password equality, password length, email pattern,
company name for producers; it returns `none` (Ok) exactly when all five
checks pass. -/
theorem validateForm_first_failed_check (fd : FormData) (isProducer : Bool) :
    validateForm fd isProducer = firstFailure (specChecks fd isProducer) ∧
    (validateForm fd isProducer = none ↔ ∀ c ∈ specChecks fd isProducer, c.1 = true) := by
  constructor
  · rw [validateForm_cases]
    simp only [specChecks, firstFailure]
    split_ifs <;> simp_all <;> omega
  · rw [validateForm_eq_none_iff]
    simp only [specChecks, OtherChecksPass, List.mem_cons, List.mem_singleton,
      List.not_mem_nil, or_false, forall_eq_or_imp, forall_eq, decide_eq_true_eq]
    tauto

/-- C2, as stated, fails: with every other check passing, the email
`x a@b.c` is accepted although it contains a space and so is not of the
shape `X@Y.Z`. -/
theorem email_whole_shape_counterexample :
    ¬ ∀ (fd : FormData) (isProducer : Bool), OtherChecksPass fd isProducer →
        (validateForm fd isProducer = none ↔ HasShape (toUTF16 fd.email)) := by
  intro h
  have hs : HasShape (toUTF16 (sampleForm "x a@b.c").email) :=
    (h (sampleForm "x a@b.c") false (by unfold OtherChecksPass; decide)).1 (by decide)
  have hw := hasShape_no_whiteSpace _ hs 0x20 (by decide)
  exact absurd hw (by decide)

/-- C2, amended: with every other check passing, `validateForm` accepts the
email exactly when some contiguous part of it has the shape `X@Y.Z` (the
pattern is not anchored), and a rejected email is reported with the email
reason; `abc`, `a@b` and `a@.com` are rejected and `a@b.c` is accepted. -/
theorem validateForm_email_contains_shape (fd : FormData) (isProducer : Bool)
    (h : OtherChecksPass fd isProducer) :
    (validateForm fd isProducer = none ↔ ContainsShape (toUTF16 fd.email)) ∧
    (¬ ContainsShape (toUTF16 fd.email) →
      validateForm fd isProducer = some "Please enter a valid email address.") ∧
    validateForm { fd with email := "abc" } isProducer
      = some "Please enter a valid email address." ∧
    validateForm { fd with email := "a@b" } isProducer
      = some "Please enter a valid email address." ∧
    validateForm { fd with email := "a@.com" } isProducer
      = some "Please enter a valid email address." ∧
    validateForm { fd with email := "a@b.c" } isProducer = none := by
  have key : ∀ e : String, e ≠ "" →
      validateForm { fd with email := e } isProducer =
        if reTest emailPattern (toUTF16 e) = false then
          some "Please enter a valid email address." else none := by
    intro e he
    obtain ⟨h1, -, h3, h4, h5, h6, h7⟩ := h
    rw [validateForm_cases]
    have h6' : ¬ jsLength fd.password < 6 := by omega
    have h7' : ¬ (isProducer = true ∧ fd.companyName = "") := fun hc => h7 hc.1 hc.2
    have h6c : 6 ≤ jsLength fd.confirmPassword := h5 ▸ h6
    simp [h1, he, h3, h4, h5, h6', h6c, h7']
  refine ⟨?_, ?_, ?_, ?_, ?_, ?_⟩
  · rw [validateForm_eq_none_iff, reTest_emailPattern_iff]
    exact ⟨fun hh => hh.2, fun hh => ⟨h, hh⟩⟩
  · intro hn
    have hk := key fd.email h.2.1
    rw [← reTest_emailPattern_iff, Bool.not_eq_true] at hn
    simpa [hn] using hk
  · rw [key "abc" (by decide)]; decide
  · rw [key "a@b" (by decide)]; decide
  · rw [key "a@.com" (by decide)]; decide
  · rw [key "a@b.c" (by decide)]; decide

/-- C2, amended, at a concrete form: `ana@mail.org` is accepted and contains
the shape. -/
theorem validateForm_email_contains_shape_witness :
    OtherChecksPass (sampleForm "ana@mail.org") false ∧
    (validateForm (sampleForm "ana@mail.org") false = none ↔
      ContainsShape (toUTF16 (sampleForm "ana@mail.org").email)) :=
  ⟨by unfold OtherChecksPass; decide,
   (validateForm_email_contains_shape (sampleForm "ana@mail.org") false
      (by unfold OtherChecksPass; decide)).1⟩

/-! ## Submission -/

theorem handleSubmit_invalid (isProducer : Bool) (st : State) (r : Remote) (msg : String)
    (h : validateForm st.formData isProducer = some msg) :
    handleSubmit isProducer st r = [.setError "", .setSuccessMessage "", .setError msg] := by
  simp [handleSubmit, h]

theorem handleSubmit_upload_failed (isProducer : Bool) (st : State) (r : Remote)
    (image : String) (upload : String → UploadResult) (url : Option String)
    (hv : validateForm st.formData isProducer = none)
    (hi : st.image = some image) (ht : truthy image = true)
    (hb : r.uploadImageToCloudinary = some upload) (hr : upload image = .resolved url)
    (hu : truthyOpt url = false) :
    handleSubmit isProducer st r =
      [.setError "", .setSuccessMessage "", .setLoading true, .uploadImage image,
       .setError "Image upload failed.", .setLoading false] := by
  simp [handleSubmit, hv, hi, ht, hb, hr, hu]

/-- When the image step raises, `handleSubmit` stops after `setLoading(true)`:
the loading flag stays up and no error is set. -/
theorem submit_upload_raises (isProducer : Bool) (st : State) (r : Remote)
    (hv : validateForm st.formData isProducer = none) (h : UploadRaises st r) :
    (submit isProducer st r).successMessage = "" ∧ (submit isProducer st r).error = "" ∧
    (submit isProducer st r).loading = true := by
  obtain ⟨image, hi, ht, hb | ⟨upload, hb, hr⟩⟩ := h
  · have hh : handleSubmit isProducer st r =
        [.setError "", .setSuccessMessage "", .setLoading true, .unhandledRejection] := by
      simp [handleSubmit, hv, hi, ht, hb]
    rw [submit, hh]
    exact ⟨rfl, rfl, rfl⟩
  · have hh : handleSubmit isProducer st r =
        [.setError "", .setSuccessMessage "", .setLoading true, .uploadImage image,
         .unhandledRejection] := by
      simp [handleSubmit, hv, hi, ht, hb, hr]
    rw [submit, hh]
    exact ⟨rfl, rfl, rfl⟩

theorem handleSubmit_valid (isProducer : Bool) (st : State) (r : Remote)
    (hv : validateForm st.formData isProducer = none) (hu : UploadPasses st r) :
    handleSubmit isProducer st r =
      .setError "" :: .setSuccessMessage "" :: .setLoading true ::
        (uploadCalls st ++ registerUser isProducer st.formData r) := by
  unfold UploadPasses at hu
  unfold handleSubmit uploadCalls
  rw [hv]
  cases hi : st.image with
  | none => simp
  | some image =>
    cases ht : truthy image with
    | false => simp [ht]
    | true =>
      obtain ⟨upload, url, hb, hr, hok⟩ := hu image hi ht
      simp [ht, hb, hr, hok]

theorem not_uploadPasses (st : State) (r : Remote) (h : ¬ UploadPasses st r) :
    UploadRaises st r ∨
    ∃ image upload url, st.image = some image ∧ truthy image = true ∧
      r.uploadImageToCloudinary = some upload ∧ upload image = .resolved url ∧
      truthyOpt url = false := by
  unfold UploadPasses at h
  push_neg at h
  obtain ⟨image, h1, h2, h3⟩ := h
  cases hb : r.uploadImageToCloudinary with
  | none => exact Or.inl ⟨image, h1, h2, Or.inl hb⟩
  | some upload =>
    cases hr : upload image with
    | rejected => exact Or.inl ⟨image, h1, h2, Or.inr ⟨upload, hb, hr⟩⟩
    | resolved url =>
      refine Or.inr ⟨image, upload, url, h1, h2, rfl, hr, ?_⟩
      have := h3 upload url hb hr
      simpa using this

theorem uploadPasses_not_raises (st : State) (r : Remote) (h : UploadPasses st r) :
    ¬ UploadRaises st r := by
  rintro ⟨image, hi, ht, hb | ⟨upload, hb, hr⟩⟩
  · obtain ⟨u, url, h1, -, -⟩ := h image hi ht
    rw [hb] at h1
    cases h1
  · obtain ⟨u, url, h1, h2, -⟩ := h image hi ht
    rw [hb] at h1
    cases h1
    rw [hr] at h2
    cases h2

theorem append_ne_empty (a b : String) (h : a ≠ "") : a ++ b ≠ "" := by
  intro hab
  apply h
  have hd : (a ++ b).data = [] := by rw [hab]
  rw [String.data_append, List.append_eq_nil] at hd
  exact String.ext hd.1

theorem validateForm_reason_ne_empty (fd : FormData) (isProducer : Bool) (msg : String)
    (h : validateForm fd isProducer = some msg) : msg ≠ "" := by
  rw [validateForm_cases] at h
  split_ifs at h <;> (cases h; decide)

theorem registerUser_auth_error (isProducer : Bool) (fd : FormData) (r : Remote) (m : String)
    (hc : r.createUserWithEmailAndPassword fd.email fd.password = .error m) :
    registerUser isProducer fd r = .createUser fd.email fd.password :: catchFinally m := by
  simp [registerUser, hc]

theorem registerUser_profile_error (isProducer : Bool) (fd : FormData) (r : Remote)
    (userEmail m : String)
    (hc : r.createUserWithEmailAndPassword fd.email fd.password = .ok userEmail)
    (hp : r.setDoc "users" userEmail (.profile (profileRecord isProducer fd r.now)) = .error m) :
    registerUser isProducer fd r =
      .createUser fd.email fd.password ::
      .setDoc "users" userEmail (.profile (profileRecord isProducer fd r.now)) ::
      catchFinally m := by
  simp [registerUser, hc, hp]

theorem registerUser_role_error (isProducer : Bool) (fd : FormData) (r : Remote)
    (userEmail m : String) (x : Unit)
    (hc : r.createUserWithEmailAndPassword fd.email fd.password = .ok userEmail)
    (hp : r.setDoc "users" userEmail (.profile (profileRecord isProducer fd r.now)) = .ok x)
    (hr : r.setDoc "Roles" userEmail (.role (if isProducer then 2 else 1)) = .error m) :
    registerUser isProducer fd r =
      .createUser fd.email fd.password ::
      .setDoc "users" userEmail (.profile (profileRecord isProducer fd r.now)) ::
      .setDoc "Roles" userEmail (.role (if isProducer then 2 else 1)) ::
      catchFinally m := by
  simp [registerUser, hc, hp, hr]

theorem registerUser_ok (isProducer : Bool) (fd : FormData) (r : Remote)
    (userEmail : String) (x y : Unit)
    (hc : r.createUserWithEmailAndPassword fd.email fd.password = .ok userEmail)
    (hp : r.setDoc "users" userEmail (.profile (profileRecord isProducer fd r.now)) = .ok x)
    (hr : r.setDoc "Roles" userEmail (.role (if isProducer then 2 else 1)) = .ok y) :
    registerUser isProducer fd r =
      [.createUser fd.email fd.password,
       .setDoc "users" userEmail (.profile (profileRecord isProducer fd r.now)),
       .setDoc "Roles" userEmail (.role (if isProducer then 2 else 1)),
       .setSuccessMessage "User successfully registered",
       .setTimeoutNavigate 2000 "Login", .setLoading false] := by
  simp [registerUser, hc, hp, hr]

theorem applyEffects_append (st : State) (a b : List Effect) :
    applyEffects st (a ++ b) = applyEffects (applyEffects st a) b := by
  simp [applyEffects, List.foldl_append]

theorem applyEffects_cons (st : State) (e : Effect) (es : List Effect) :
    applyEffects st (e :: es) = applyEffects (applyEffect st e) es := rfl

theorem applyEffects_nil (st : State) : applyEffects st [] = st := rfl

theorem applyEffects_uploadCalls (st st0 : State) : applyEffects st (uploadCalls st0) = st := by
  unfold uploadCalls
  split
  · split <;> rfl
  · rfl

theorem remoteCalls_append (a b : List Effect) :
    remoteCalls (a ++ b) = remoteCalls a ++ remoteCalls b := by
  simp [remoteCalls]

theorem remoteCalls_uploadCalls (st : State) : remoteCalls (uploadCalls st) = uploadCalls st := by
  unfold uploadCalls
  split
  · split <;> rfl
  · rfl

theorem applyEffects_image (st : State) (es : List Effect) :
    (applyEffects st es).image = st.image ∧ (applyEffects st es).formData = st.formData := by
  induction es generalizing st with
  | nil => exact ⟨rfl, rfl⟩
  | cons e es ih =>
    rw [applyEffects_cons]
    obtain ⟨h1, h2⟩ := ih (applyEffect st e)
    rw [h1, h2]
    cases e <;> exact ⟨rfl, rfl⟩

/-- The form state at the end of `handleSubmit`, by how the submission went. -/
theorem submit_cases (isProducer : Bool) (st : State) (r : Remote) :
    (Succeeds isProducer st r ∧
      (submit isProducer st r).successMessage = "User successfully registered" ∧
      (submit isProducer st r).error = "" ∧ (submit isProducer st r).loading = false) ∨
    (¬ Succeeds isProducer st r ∧ (submit isProducer st r).successMessage = "" ∧
      (submit isProducer st r).error ≠ "" ∧
      (submit isProducer st r).loading = (st.loading && (validateForm st.formData isProducer).isSome)) ∨
    (¬ Succeeds isProducer st r ∧ validateForm st.formData isProducer = none ∧
      UploadRaises st r ∧ (submit isProducer st r).successMessage = "" ∧
      (submit isProducer st r).error = "" ∧ (submit isProducer st r).loading = true) := by
  cases hv : validateForm st.formData isProducer with
  | some msg =>
    have hns : ¬ Succeeds isProducer st r := by
      intro hs
      rw [hs.1] at hv
      cases hv
    refine Or.inr (Or.inl ⟨hns, ?_, ?_, ?_⟩)
    · simp [submit, handleSubmit_invalid isProducer st r msg hv, applyEffects, applyEffect]
    · simpa [submit, handleSubmit_invalid isProducer st r msg hv, applyEffects, applyEffect]
        using validateForm_reason_ne_empty _ _ _ hv
    · simp [submit, handleSubmit_invalid isProducer st r msg hv, applyEffects, applyEffect]
  | none =>
    by_cases hu : UploadPasses st r
    · have hh := handleSubmit_valid isProducer st r hv hu
      cases hc : r.createUserWithEmailAndPassword st.formData.email st.formData.password with
      | error m =>
        refine Or.inr (Or.inl ⟨?_, ?_, ?_, ?_⟩)
        · rintro ⟨-, -, u, h1, -⟩
          rw [h1] at hc; cases hc
        all_goals
          simp only [submit, hh, registerUser_auth_error isProducer st.formData r m hc,
            applyEffects_cons, applyEffects_append, applyEffects_uploadCalls, applyEffect,
            catchFinally, applyEffects_nil]
        · exact append_ne_empty _ _ (by decide)
        · simp
      | ok userEmail =>
        cases hp : r.setDoc "users" userEmail
            (.profile (profileRecord isProducer st.formData r.now)) with
        | error m =>
          refine Or.inr (Or.inl ⟨?_, ?_, ?_, ?_⟩)
          · rintro ⟨-, -, u, h1, h2, -⟩
            rw [h1] at hc; cases hc
            rw [h2] at hp; cases hp
          all_goals
            simp only [submit, hh,
              registerUser_profile_error isProducer st.formData r userEmail m hc hp,
              applyEffects_cons, applyEffects_append, applyEffects_uploadCalls, applyEffect,
              catchFinally, applyEffects_nil]
          · exact append_ne_empty _ _ (by decide)
          · simp
        | ok x =>
          cases hr : r.setDoc "Roles" userEmail (.role (if isProducer then 2 else 1)) with
          | error m =>
            refine Or.inr (Or.inl ⟨?_, ?_, ?_, ?_⟩)
            · rintro ⟨-, -, u, h1, -, h3⟩
              rw [h1] at hc; cases hc
              rw [h3] at hr; cases hr
            all_goals
              simp only [submit, hh,
                registerUser_role_error isProducer st.formData r userEmail m x hc hp hr,
                applyEffects_cons, applyEffects_append, applyEffects_uploadCalls, applyEffect,
                catchFinally, applyEffects_nil]
            · exact append_ne_empty _ _ (by decide)
            · simp
          | ok y =>
            refine Or.inl ⟨⟨hv, hu, userEmail, hc, hp, hr⟩, ?_, ?_, ?_⟩
            all_goals
              simp only [submit, hh,
                registerUser_ok isProducer st.formData r userEmail x y hc hp hr,
                applyEffects_cons, applyEffects_append, applyEffects_uploadCalls, applyEffect,
                applyEffects_nil]
    · rcases not_uploadPasses st r hu with hraise | ⟨image, upload, url, hi, ht, hb, hr, hf⟩
      · obtain ⟨h1, h2, h3⟩ := submit_upload_raises isProducer st r hv hraise
        exact Or.inr (Or.inr ⟨fun hs => hu hs.2.1, rfl, hraise, h1, h2, h3⟩)
      · refine Or.inr (Or.inl ⟨fun hs => hu hs.2.1, ?_, ?_, ?_⟩)
        all_goals
          simp [submit, handleSubmit_upload_failed isProducer st r image upload url hv hi ht hb
            hr hf, applyEffects, applyEffect]

theorem mem_registerUser_setDoc (isProducer : Bool) (fd : FormData) (r : Remote)
    (c k : String) (d : DocData) (h : Effect.setDoc c k d ∈ registerUser isProducer fd r) :
    r.createUserWithEmailAndPassword fd.email fd.password = .ok k ∧
    ((c = "users" ∧ d = .profile (profileRecord isProducer fd r.now)) ∨
     (c = "Roles" ∧ d = .role (if isProducer then 2 else 1))) := by
  cases hc : r.createUserWithEmailAndPassword fd.email fd.password with
  | error m =>
    rw [registerUser_auth_error isProducer fd r m hc] at h
    simp [catchFinally] at h
  | ok userEmail =>
    cases hp : r.setDoc "users" userEmail (.profile (profileRecord isProducer fd r.now)) with
    | error m =>
      rw [registerUser_profile_error isProducer fd r userEmail m hc hp] at h
      simp only [catchFinally, List.mem_cons, reduceCtorEq, Effect.setDoc.injEq,
        List.not_mem_nil, or_false, false_or] at h
      obtain ⟨rfl, rfl, rfl⟩ := h
      exact ⟨rfl, Or.inl ⟨rfl, rfl⟩⟩
    | ok x =>
      cases hr : r.setDoc "Roles" userEmail (.role (if isProducer then 2 else 1)) with
      | error m =>
        rw [registerUser_role_error isProducer fd r userEmail m x hc hp hr] at h
        simp only [catchFinally, List.mem_cons, reduceCtorEq, Effect.setDoc.injEq,
          List.not_mem_nil, or_false, false_or] at h
        rcases h with ⟨rfl, rfl, rfl⟩ | ⟨rfl, rfl, rfl⟩
        · exact ⟨rfl, Or.inl ⟨rfl, rfl⟩⟩
        · exact ⟨rfl, Or.inr ⟨rfl, rfl⟩⟩
      | ok y =>
        rw [registerUser_ok isProducer fd r userEmail x y hc hp hr] at h
        simp only [List.mem_cons, reduceCtorEq, Effect.setDoc.injEq,
          List.not_mem_nil, or_false, false_or] at h
        rcases h with ⟨rfl, rfl, rfl⟩ | ⟨rfl, rfl, rfl⟩
        · exact ⟨rfl, Or.inl ⟨rfl, rfl⟩⟩
        · exact ⟨rfl, Or.inr ⟨rfl, rfl⟩⟩

theorem mem_handleSubmit_setDoc (isProducer : Bool) (st : State) (r : Remote)
    (c k : String) (d : DocData) (h : Effect.setDoc c k d ∈ handleSubmit isProducer st r) :
    Effect.setDoc c k d ∈ registerUser isProducer st.formData r := by
  unfold handleSubmit at h
  simp only [List.mem_cons, reduceCtorEq, false_or] at h
  split at h
  · simp at h
  · simp only [List.mem_cons, reduceCtorEq, false_or] at h
    split at h
    · split at h
      · split at h
        · simp at h
        · simp only [List.mem_cons, reduceCtorEq, false_or] at h
          split at h
          · simp at h
          · split at h
            · simp at h
            · exact h
      · exact h
    · exact h

/-- Handlers never touch the `image` slot and every submission ends with the
loading flag down, so both hold in every state the screen can reach. -/
theorem run_image_loading (isProducer : Bool) (events : List Event) :
    (run isProducer events).image = none ∧ (run isProducer events).loading = false := by
  have gen : ∀ (evs : List Event) (st : State), st.image = none → st.loading = false →
      (evs.foldl (step isProducer) st).image = none ∧
      (evs.foldl (step isProducer) st).loading = false := by
    intro evs
    induction evs with
    | nil => intro st h1 h2; exact ⟨h1, h2⟩
    | cons e evs ih =>
      intro st h1 h2
      rw [List.foldl_cons]
      apply ih
      · cases e with
        | changeText f t => exact h1
        | uploadComplete u => exact h1
        | pressRegister r =>
          show (applyEffects st (handleSubmit isProducer st r)).image = none
          rw [(applyEffects_image st _).1]; exact h1
      · cases e with
        | changeText f t => exact h2
        | uploadComplete u => exact h2
        | pressRegister r =>
          show (submit isProducer st r).loading = false
          rcases submit_cases isProducer st r with
            ⟨-, -, -, hl⟩ | ⟨-, -, -, hl⟩ | ⟨-, -, ⟨image, hi, -⟩, -⟩
          · exact hl
          · rw [hl, h2]; rfl
          · rw [h1] at hi
            cases hi
  exact gen events initialState rfl rfl

/-- Whatever happened on the screen before, a submission that passes
validation goes straight to account creation: the upload branch of
`handleSubmit` is never taken. -/
theorem run_submit_creates_account (isProducer : Bool) (events : List Event) (r : Remote)
    (hv : validateForm (run isProducer events).formData isProducer = none) :
    handleSubmit isProducer (run isProducer events) r =
      .setError "" :: .setSuccessMessage "" :: .setLoading true ::
        registerUser isProducer (run isProducer events).formData r := by
  have hi := (run_image_loading isProducer events).1
  have hu : UploadPasses (run isProducer events) r := by
    intro image h
    rw [hi] at h
    cases h
  rw [handleSubmit_valid isProducer _ r hv hu]
  simp [uploadCalls, hi]

theorem submit_valid (isProducer : Bool) (st : State) (r : Remote)
    (hv : validateForm st.formData isProducer = none) (hu : UploadPasses st r) :
    submit isProducer st r =
      applyEffects { st with error := "", successMessage := "", loading := true }
        (registerUser isProducer st.formData r) ∧
    remoteCalls (handleSubmit isProducer st r) =
      uploadCalls st ++ remoteCalls (registerUser isProducer st.formData r) := by
  rw [submit, handleSubmit_valid isProducer st r hv hu]
  constructor
  · simp only [applyEffects_cons, applyEffects_append, applyEffects_uploadCalls, applyEffect]
  · have h3 : ∀ es : List Effect,
        remoteCalls (.setError "" :: .setSuccessMessage "" :: .setLoading true :: es)
          = remoteCalls es := fun es => rfl
    rw [h3, remoteCalls_append, remoteCalls_uploadCalls]

/-- C3: a form with a missing required field fails validation, and on every
validation failure `handleSubmit` makes no remote call (no upload, no account
creation, no document write) and never raises the loading flag. -/
theorem handleSubmit_invalid_no_remote_call (isProducer : Bool) (st : State) (r : Remote) :
    (MissingRequired st.formData →
      validateForm st.formData isProducer = some "Please complete all required fields.") ∧
    (∀ msg, validateForm st.formData isProducer = some msg →
      remoteCalls (handleSubmit isProducer st r) = [] ∧
      (∀ b, Effect.setLoading b ∉ handleSubmit isProducer st r) ∧
      (submit isProducer st r).loading = st.loading) := by
  constructor
  · intro h
    unfold MissingRequired at h
    rw [validateForm_cases, if_pos h]
  · intro msg h
    rw [submit, handleSubmit_invalid isProducer st r msg h]
    refine ⟨rfl, ?_, rfl⟩
    intro b hb
    simp at hb

/-- C3 on the empty form of screen entry. -/
theorem handleSubmit_invalid_no_remote_call_witness :
    MissingRequired initialState.formData ∧
    remoteCalls (handleSubmit false initialState remoteOk) = [] ∧
    Effect.setLoading true ∉ handleSubmit false initialState remoteOk :=
  ⟨Or.inl rfl,
   ((handleSubmit_invalid_no_remote_call false initialState remoteOk).2 _
      ((handleSubmit_invalid_no_remote_call false initialState remoteOk).1 (Or.inl rfl))).1,
   ((handleSubmit_invalid_no_remote_call false initialState remoteOk).2 _
      ((handleSubmit_invalid_no_remote_call false initialState remoteOk).1 (Or.inl rfl))).2.1
      true⟩

/-- C4: with validation passed, no image held and every remote call
succeeding, the remote calls of `handleSubmit` are exactly account creation
with the form email and password, the profile write in `users`, the role write
in `Roles`; both writes are keyed by the account email, the role is 2 for a
producer and 1 otherwise, no upload is made, navigation to Login is scheduled
and the form ends with the success message, no error, loading down. -/
theorem handleSubmit_success_sequence (isProducer : Bool) (st : State) (r : Remote)
    (userEmail : String)
    (hv : validateForm st.formData isProducer = none)
    (hi : st.image = none)
    (hc : r.createUserWithEmailAndPassword st.formData.email st.formData.password
      = .ok userEmail)
    (hp : r.setDoc "users" userEmail (.profile (profileRecord isProducer st.formData r.now))
      = .ok ())
    (hr : r.setDoc "Roles" userEmail (.role (if isProducer then 2 else 1)) = .ok ()) :
    remoteCalls (handleSubmit isProducer st r) =
      [ .createUser st.formData.email st.formData.password,
        .setDoc "users" userEmail (.profile (profileRecord isProducer st.formData r.now)),
        .setDoc "Roles" userEmail (.role (if isProducer then 2 else 1)) ] ∧
    (∀ image, Effect.uploadImage image ∉ handleSubmit isProducer st r) ∧
    Effect.setTimeoutNavigate 2000 "Login" ∈ handleSubmit isProducer st r ∧
    (submit isProducer st r).successMessage = "User successfully registered" ∧
    (submit isProducer st r).error = "" ∧
    (submit isProducer st r).loading = false := by
  have hu : UploadPasses st r := by
    intro image h
    rw [hi] at h
    cases h
  have hh := handleSubmit_valid isProducer st r hv hu
  have hreg := registerUser_ok isProducer st.formData r userEmail () () hc hp hr
  have hup : uploadCalls st = [] := by simp [uploadCalls, hi]
  rw [hup, hreg, List.nil_append] at hh
  rw [submit, hh]
  refine ⟨rfl, ?_, ?_, rfl, rfl, rfl⟩
  · intro image hmem
    simp at hmem
  · simp

/-- C4 for the sample buyer: the three calls, with role 1. -/
theorem handleSubmit_success_sequence_witness :
    validateForm sampleState.formData false = none ∧
    remoteCalls (handleSubmit false sampleState remoteOk) =
      [ .createUser "ana@mail.org" "secret",
        .setDoc "users" "ana@mail.org"
          (.profile (profileRecord false sampleState.formData remoteOk.now)),
        .setDoc "Roles" "ana@mail.org" (.role 1) ] ∧
    (submit false sampleState remoteOk).successMessage = "User successfully registered" :=
  ⟨by decide,
   (handleSubmit_success_sequence false sampleState remoteOk "ana@mail.org"
      (by decide) rfl rfl rfl rfl).1,
   (handleSubmit_success_sequence false sampleState remoteOk "ana@mail.org"
      (by decide) rfl rfl rfl rfl).2.2.2.1⟩

/-- C5: with validation passed, when account creation fails `handleSubmit`
writes no document at all and the form ends as a remote failure: no success
message, and, unless the image step raised before account creation was
reached, an error message and loading down; when the image step did not
abort, the error is the registration error built from the provider message
and account creation is the last remote call. -/
theorem createAccount_failure_writes_nothing (isProducer : Bool) (st : State) (r : Remote)
    (m : String)
    (hv : validateForm st.formData isProducer = none)
    (hc : r.createUserWithEmailAndPassword st.formData.email st.formData.password
      = .error m) :
    (∀ c k d, Effect.setDoc c k d ∉ handleSubmit isProducer st r) ∧
    (submit isProducer st r).successMessage = "" ∧
    (¬ UploadRaises st r →
      (submit isProducer st r).error ≠ "" ∧ (submit isProducer st r).loading = false) ∧
    (UploadPasses st r →
      (submit isProducer st r).error = "Error registering the user: " ++ m ∧
      remoteCalls (handleSubmit isProducer st r) =
        uploadCalls st ++ [.createUser st.formData.email st.formData.password]) := by
  have hns : ¬ Succeeds isProducer st r := by
    rintro ⟨-, -, u, h1, -⟩
    rw [h1] at hc
    cases hc
  refine ⟨?_, ?_, ?_, ?_⟩
  · intro c k d hmem
    have h1 := (mem_registerUser_setDoc isProducer st.formData r c k d
      (mem_handleSubmit_setDoc isProducer st r c k d hmem)).1
    rw [h1] at hc
    cases hc
  · rcases submit_cases isProducer st r with ⟨hs, -⟩ | ⟨-, h, -⟩ | ⟨-, -, -, h, -⟩
    · exact absurd hs hns
    · exact h
    · exact h
  · intro hnr
    rcases submit_cases isProducer st r with ⟨hs, -⟩ | ⟨-, -, he, hl⟩ | ⟨-, -, hraise, -⟩
    · exact absurd hs hns
    · refine ⟨he, ?_⟩
      rw [hl, hv]; simp
    · exact absurd hraise hnr
  · intro hu
    obtain ⟨h1, h2⟩ := submit_valid isProducer st r hv hu
    rw [h1, h2, registerUser_auth_error isProducer st.formData r m hc]
    exact ⟨rfl, rfl⟩

/-- C5 for the sample buyer and a provider that reports a duplicate email. -/
theorem createAccount_failure_writes_nothing_witness :
    validateForm sampleState.formData false = none ∧
    (∀ c k d, Effect.setDoc c k d ∉ handleSubmit false sampleState remoteAuthFails) ∧
    (submit false sampleState remoteAuthFails).successMessage = "" ∧
    (submit false sampleState remoteAuthFails).error ≠ "" ∧
    (submit false sampleState remoteAuthFails).loading = false := by
  have hnr : ¬ UploadRaises sampleState remoteAuthFails := by
    rintro ⟨image, hi, -⟩
    cases hi
  have h := createAccount_failure_writes_nothing false sampleState remoteAuthFails
    "auth/email-already-in-use" (by decide) rfl
  exact ⟨by decide, h.1, h.2.1, (h.2.2.1 hnr).1, (h.2.2.1 hnr).2⟩

/-- C6: the code at the failing input.  A buyer fills in a valid form and
picks an image whose upload fails, so that no hosted URL reaches the form (the
callback is not called, or is called with `null`).  The `image` slot is still
`null`, the upload branch is skipped, and `handleSubmit` creates the account,
writes both documents and reports success. -/
theorem failed_upload_still_creates_account :
    (run false buyerEvents).image = none ∧
    (run false buyerEvents).formData.profileImage = none ∧
    validateForm (run false buyerEvents).formData false = none ∧
    remoteCalls (handleSubmit false (run false buyerEvents) remoteOk) =
      [ .createUser "ana@mail.org" "secret",
        .setDoc "users" "ana@mail.org"
          (.profile (profileRecord false (run false buyerEvents).formData 0)),
        .setDoc "Roles" "ana@mail.org" (.role 1) ] ∧
    (submit false (run false buyerEvents) remoteOk).successMessage
      = "User successfully registered" ∧
    (submit false (run false buyerEvents) remoteOk).error = "" ∧
    remoteCalls (handleSubmit false (run false (buyerEvents ++ [.uploadComplete none])) remoteOk) =
      remoteCalls (handleSubmit false (run false buyerEvents) remoteOk) := by
  decide

/-- C7: with validation passed, the image step not aborting and the account
created, `handleSubmit` writes the profile record, and every profile record
it writes has `profileImage` equal to the hosted URL held in the form (any
non-empty URL `u`) and `null` when the form holds none; `onUploadComplete`
is what puts the delivered URL into the form. -/
theorem handleSubmit_profileImage (isProducer : Bool) (st : State) (r : Remote)
    (userEmail : String)
    (hv : validateForm st.formData isProducer = none)
    (hu : UploadPasses st r)
    (hc : r.createUserWithEmailAndPassword st.formData.email st.formData.password
      = .ok userEmail) :
    Effect.setDoc "users" userEmail (.profile (profileRecord isProducer st.formData r.now))
      ∈ handleSubmit isProducer st r ∧
    (∀ c k prof, Effect.setDoc c k (.profile prof) ∈ handleSubmit isProducer st r →
      (∀ u, st.formData.profileImage = some u → u ≠ "" → prof.profileImage = some u) ∧
      (st.formData.profileImage = none → prof.profileImage = none)) ∧
    (∀ (st0 : State) (url : Option String),
      (step isProducer st0 (.uploadComplete url)).formData.profileImage = url) := by
  refine ⟨?_, ?_, fun _ _ => rfl⟩
  · rw [handleSubmit_valid isProducer st r hv hu]
    have hmem : Effect.setDoc "users" userEmail
        (.profile (profileRecord isProducer st.formData r.now))
        ∈ registerUser isProducer st.formData r := by
      unfold registerUser
      rw [hc]
      simp
    simp [hmem]
  · intro c k prof hmem
    have h1 := (mem_registerUser_setDoc isProducer st.formData r c k _
      (mem_handleSubmit_setDoc isProducer st r c k _ hmem)).2
    have hprof : prof = profileRecord isProducer st.formData r.now := by
      rcases h1 with ⟨-, h⟩ | ⟨-, h⟩
      · exact DocData.profile.inj h
      · cases h
    subst hprof
    constructor
    · intro u h hne
      simp [profileRecord, orNull, truthyOpt, truthy, h, hne]
    · intro h
      simp [profileRecord, orNull, truthyOpt, h]

/-- C7 for the producer `Acme` whose upload delivered `https://x/img.png`:
the profile record carries that URL. -/
theorem handleSubmit_profileImage_witness :
    validateForm (run true producerEvents).formData true = none ∧
    (run true producerEvents).formData.profileImage = some "https://x/img.png" ∧
    (run true producerEvents).formData.companyName = "Acme" ∧
    Effect.setDoc "users" "ana@mail.org"
        (.profile (profileRecord true (run true producerEvents).formData remoteOk.now))
      ∈ handleSubmit true (run true producerEvents) remoteOk ∧
    (profileRecord true (run true producerEvents).formData remoteOk.now).profileImage
      = some "https://x/img.png" := by
  have hu : UploadPasses (run true producerEvents) remoteOk := by
    intro image h
    rw [(run_image_loading true producerEvents).1] at h
    cases h
  have h := handleSubmit_profileImage true (run true producerEvents) remoteOk "ana@mail.org"
    (by decide) hu rfl
  exact ⟨by decide, rfl, rfl, h.1, (h.2.1 _ _ _ h.1).1 _ rfl (by decide)⟩

/-- C8: for a buyer the values of `companyName`, `industryType` and
`companyDescription` do not change the result of `validateForm`, and every
profile record `handleSubmit` writes has these three fields empty, whatever
the form holds. -/
theorem buyer_company_fields_ignored (fd : FormData) (c i d : String)
    (st : State) (r : Remote) :
    validateForm { fd with companyName := c, industryType := i, companyDescription := d } false
      = validateForm fd false ∧
    (∀ coll key prof, Effect.setDoc coll key (.profile prof) ∈ handleSubmit false st r →
      prof.companyName = "" ∧ prof.industryType = "" ∧ prof.companyDescription = "") := by
  constructor
  · simp [validateForm]
  · intro coll key prof hmem
    have h1 := (mem_registerUser_setDoc false st.formData r coll key _
      (mem_handleSubmit_setDoc false st r coll key _ hmem)).2
    have hprof : prof = profileRecord false st.formData r.now := by
      rcases h1 with ⟨-, h⟩ | ⟨-, h⟩
      · exact DocData.profile.inj h
      · cases h
    subst hprof
    exact ⟨rfl, rfl, rfl⟩

/-- C9, as stated, fails: the error shown after a failed account creation is
not the provider message itself. -/
theorem error_not_verbatim_counterexample :
    ¬ ∀ (isProducer : Bool) (st : State) (r : Remote) (m : String),
        validateForm st.formData isProducer = none →
        r.createUserWithEmailAndPassword st.formData.email st.formData.password = .error m →
        (submit isProducer st r).error = m := by
  intro h
  have h1 := h false sampleState remoteAuthFails "auth/email-already-in-use" (by decide) rfl
  revert h1
  decide

/-- C9, amended: with validation passed and the image step not aborting,
when account creation, the profile write or the role write fails with
provider message `m`, the error shown is `Error registering the user: `
followed by `m` verbatim, and the failing call is the last remote call. -/
theorem remote_failure_message_and_stop (isProducer : Bool) (st : State) (r : Remote)
    (hv : validateForm st.formData isProducer = none) (hu : UploadPasses st r) :
    (∀ m, r.createUserWithEmailAndPassword st.formData.email st.formData.password = .error m →
      (submit isProducer st r).error = "Error registering the user: " ++ m ∧
      remoteCalls (handleSubmit isProducer st r) =
        uploadCalls st ++ [.createUser st.formData.email st.formData.password]) ∧
    (∀ userEmail m,
      r.createUserWithEmailAndPassword st.formData.email st.formData.password = .ok userEmail →
      r.setDoc "users" userEmail (.profile (profileRecord isProducer st.formData r.now))
        = .error m →
      (submit isProducer st r).error = "Error registering the user: " ++ m ∧
      remoteCalls (handleSubmit isProducer st r) =
        uploadCalls st ++
          [ .createUser st.formData.email st.formData.password,
            .setDoc "users" userEmail (.profile (profileRecord isProducer st.formData r.now)) ]) ∧
    (∀ userEmail m,
      r.createUserWithEmailAndPassword st.formData.email st.formData.password = .ok userEmail →
      r.setDoc "users" userEmail (.profile (profileRecord isProducer st.formData r.now))
        = .ok () →
      r.setDoc "Roles" userEmail (.role (if isProducer then 2 else 1)) = .error m →
      (submit isProducer st r).error = "Error registering the user: " ++ m ∧
      remoteCalls (handleSubmit isProducer st r) =
        uploadCalls st ++
          [ .createUser st.formData.email st.formData.password,
            .setDoc "users" userEmail (.profile (profileRecord isProducer st.formData r.now)),
            .setDoc "Roles" userEmail (.role (if isProducer then 2 else 1)) ]) := by
  obtain ⟨h1, h2⟩ := submit_valid isProducer st r hv hu
  refine ⟨?_, ?_, ?_⟩
  · intro m hc
    rw [h1, h2, registerUser_auth_error isProducer st.formData r m hc]
    exact ⟨rfl, rfl⟩
  · intro userEmail m hc hp
    rw [h1, h2, registerUser_profile_error isProducer st.formData r userEmail m hc hp]
    exact ⟨rfl, rfl⟩
  · intro userEmail m hc hp hr
    rw [h1, h2, registerUser_role_error isProducer st.formData r userEmail m () hc hp hr]
    exact ⟨rfl, rfl⟩

/-- C9, amended, for the sample buyer and a store that denies the profile
write: the error is the fixed text followed by `permission-denied`. -/
theorem remote_failure_message_and_stop_witness :
    validateForm sampleState.formData false = none ∧
    (submit false sampleState remoteProfileFails).error
      = "Error registering the user: " ++ "permission-denied" := by
  have hu : UploadPasses sampleState remoteProfileFails := by
    intro image h
    cases h
  exact ⟨by decide,
    ((remote_failure_message_and_stop false sampleState remoteProfileFails (by decide) hu).2.1
      "ana@mail.org" "permission-denied" rfl rfl).1⟩

/-- C10: the code after a failed image upload.  On the screen, a buyer with a
valid form whose upload delivered no URL (the callback passed `null`) presses
Register: the submission ends with the success message set and the error
empty, although the upload failed.  The image step of `handleSubmit` itself,
run on a state that holds an image, raises at line 74 before the `try`: the
loading flag stays up and no error is set. -/
theorem failed_upload_ends_in_success :
    (run false (buyerEvents ++ [.uploadComplete none])).formData.profileImage = none ∧
    validateForm (run false (buyerEvents ++ [.uploadComplete none])).formData false = none ∧
    (submit false (run false (buyerEvents ++ [.uploadComplete none])) remoteOk).successMessage
      = "User successfully registered" ∧
    (submit false (run false (buyerEvents ++ [.uploadComplete none])) remoteOk).error = "" ∧
    handleSubmit false stateWithImage remoteOk =
      [.setError "", .setSuccessMessage "", .setLoading true, .unhandledRejection] ∧
    (submit false stateWithImage remoteOk).loading = true ∧
    (submit false stateWithImage remoteOk).error = "" := by
  decide

end FormReg
